import Mathlib

/-!
Verification of the finetune evaluation pipeline
(src/coding/finetune/pipeline.py) against its specification.

The pipeline's state is embedded shallowly: the working directory holding the
pickle checkpoints becomes an explicit `FS` value threaded through each
operation, `self.trackers` becomes a list field of `EvalState`, and the
external collaborators (`gather_all_trackers`, `score`, the dataset) become
parameters.  Scores (Python floats produced by `score()` or the literal
`0.0`) are represented as rationals; the claims only compare them for
equality.
-/

/-- Python exception kinds raised by the code paths modelled here. -/
inductive PyErr where
  | fileNotFoundError
  | typeError
  | attributeError
  | indexError
deriving DecidableEq

/-- An exception raised inside the external `score` collaborator. -/
inductive ScoreErr where
  | err (msg : String)
deriving DecidableEq

/-- Modelled from the spec: coding/schemas/context.py is not under src/.  The
spec calls this a SampleRecord, an opaque sample drawn from a dataset; only
its identity matters to the pipeline, so it carries one opaque field. -/
structure Context where
  data : String
deriving DecidableEq

/-- A task wrapping one sample, as built by generate_bigcode_tasks
(pipeline.py line 34). -/
structure BigCodeBenchTask where
  context : Context
deriving DecidableEq

/-- Modelled from the spec: coding/schemas/tracking.py is not under src/.
pipeline.py reads `model.model_name` and `model.competition_id`; the spec's
CandidateIdentity is a name/version tuple, so a `revision` field carries the
version component. -/
structure ModelInfo where
  model_name : String
  revision : String
  competition_id : String
deriving DecidableEq

/-- Modelled from the spec: the TrackingRecord {CandidateIdentity,
competition_id, score: optional float, raw state}.  pipeline.py reads and
writes `model` and `score`; `score = none` is Python's `None` (not yet
scored). -/
structure TrackingInfo where
  model : ModelInfo
  score : Option Rat
deriving DecidableEq

/-- Modelled from the spec: COMPETITION_ID from coding/constants.py (not
under src/), the module-level active-competition constant imported at
pipeline.py line 13.  Its concrete value is immaterial to every claim; it is
fixed here so that definitions stay executable. -/
def COMPETITION_ID : String := "comp-2"

/-- FinetuneEventResults (pipeline.py lines 20-22): the ResultSet returned to
the caller, a pydantic model with exactly the two fields below. -/
structure FinetuneEventResults where
  trackers : List TrackingInfo
  competition_id : String
deriving DecidableEq

/-- Lookup in an association list keyed by competition id (a file name
`tasks_{cid}.pkl` or `results_{cid}.pkl` on disk). -/
def alookup {α : Type} (k : String) : List (String × α) → Option α
  | [] => none
  | (k', v) :: rest => if k' = k then some v else alookup k rest

/-- Overwrite-or-insert in an association list (opening a file with mode
"wb" replaces its previous content). -/
def aset {α : Type} (k : String) (v : α) : List (String × α) → List (String × α)
  | [] => [(k, v)]
  | (k', v') :: rest => if k' = k then (k, v) :: rest else (k', v') :: aset k v rest

/-- The working directory, restricted to the checkpoint files the pipeline
owns: `tasks_{cid}.pkl` files and `results_{cid}.pkl` files, keyed by
competition id.  An absent key is an absent file. -/
structure FS where
  tasks : List (String × List BigCodeBenchTask)
  results : List (String × List TrackingInfo)
deriving DecidableEq

/-- generate_bigcode_tasks (pipeline.py lines 31-35): n successive draws from
the dataset, each wrapped into a task.  The dataset's `ds.get()` stream is
modelled as a function from the draw index to the sample. -/
def generate_bigcode_tasks (ds : Nat → Context) (n : Nat) : List BigCodeBenchTask :=
  (List.range n).map (fun i => ⟨ds i⟩)

/-- store_tasks (pipeline.py lines 131-133): pickle.dump of self.tasks into
`tasks_{cid}.pkl`, overwriting any previous content. -/
def store_tasks (cid : String) (ts : List BigCodeBenchTask) (fs : FS) : FS :=
  { fs with tasks := aset cid ts fs.tasks }

/-- store_results (pipeline.py lines 135-139): pickle.dump of the dict
holding the full self.trackers list into `results_{cid}.pkl`, overwriting
any previous content. -/
def store_results (cid : String) (trackers : List TrackingInfo) (fs : FS) : FS :=
  { fs with results := aset cid trackers fs.results }

/-- Result of load_tasks: the loaded task list, the possibly-updated
directory, and whether the generate branch ran. -/
structure LoadTasksResult where
  tasks : List BigCodeBenchTask
  fs : FS
  generated : Bool
deriving DecidableEq

/-- load_tasks (pipeline.py lines 58-64): load `tasks_{cid}.pkl` when it
exists, otherwise generate `config.finetune_test_size` tasks and store them. -/
def load_tasks (cid : String) (ds : Nat → Context) (n : Nat) (fs : FS) : LoadTasksResult :=
  match alookup cid fs.tasks with
  | some ts => ⟨ts, fs, false⟩
  | none =>
    let ts := generate_bigcode_tasks ds n
    ⟨ts, store_tasks cid ts fs, true⟩

/-- load_results (pipeline.py lines 66-71): when `results_{cid}.pkl` exists,
self.trackers becomes the pickled dict's "trackers" entry; otherwise it keeps
its initial empty value. -/
def load_results (cid : String) (fs : FS) : List TrackingInfo :=
  match alookup cid fs.results with
  | some ts => ts
  | none => []

/-- cleanup (pipeline.py lines 141-151).  The first statement,
`os.remove(f"tasks_{cid}.pkl")`, raises FileNotFoundError when that file is
absent; when it is present the subsequent directory scan deletes every file
matching `tasks_*.pkl` or `results_*.pkl`, i.e. the checkpoints of every
competition, leaving no checkpoint file behind. -/
def cleanup (cid : String) (fs : FS) : Except PyErr FS :=
  match alookup cid fs.tasks with
  | none => .error .fileNotFoundError
  | some _ => .ok ⟨[], []⟩

/-- The state mutated by FinetunePipeline.evaluate, plus two observation
logs: `scoreCalls` records each model name passed to the external `score`
collaborator (in call order), and `processed` records each discovered
tracking_info object as it stands after its loop iteration (the loop mutates
the object's `score` in place). -/
structure EvalState where
  trackers : List TrackingInfo
  fs : FS
  scoreCalls : List String
  processed : List TrackingInfo
deriving DecidableEq

/-- The generator-plus-next lookup at pipeline.py line 86:
`next((tracker.score for tracker in self.trackers if tracker.model.model_name
== name), None)`.  It yields the first matching tracker's score, and `none`
both when no tracker matches and when the first match's score is Python
`None`. -/
def previousScore (name : String) : List TrackingInfo → Option Rat
  | [] => none
  | t :: rest => if t.model.model_name = name then t.score else previousScore name rest

/-- One iteration of the for-loop of FinetunePipeline.evaluate (pipeline.py
lines 83-111): skip with the copied score when a tracker with the same model
name holds a non-None score; skip when the tracking_info is already an
element of self.trackers; assign 0.0 and skip when the model's
competition_id differs from the module constant COMPETITION_ID; otherwise
call the external `score`, assign the result, append to self.trackers, and
immediately store_results. -/
def processOne (cid : String) (scoreFn : String → List BigCodeBenchTask → Rat)
    (tasks : List BigCodeBenchTask) (s : EvalState) (info : TrackingInfo) : EvalState :=
  match previousScore info.model.model_name s.trackers with
  | some prev => { s with processed := s.processed ++ [{ info with score := some prev }] }
  | none =>
    if info ∈ s.trackers then
      { s with processed := s.processed ++ [info] }
    else if info.model.competition_id ≠ COMPETITION_ID then
      { s with processed := s.processed ++ [{ info with score := some 0 }] }
    else
      let scored : TrackingInfo := { info with score := some (scoreFn info.model.model_name tasks) }
      { trackers := s.trackers ++ [scored]
        fs := store_results cid (s.trackers ++ [scored]) s.fs
        scoreCalls := s.scoreCalls ++ [info.model.model_name]
        processed := s.processed ++ [scored] }

/-- FinetunePipeline.evaluate (pipeline.py lines 77-114): the discovered
candidate population (gather_all_trackers, an external collaborator) is a
parameter `news`; each candidate is processed in discovery order. -/
def evaluate (cid : String) (scoreFn : String → List BigCodeBenchTask → Rat)
    (tasks : List BigCodeBenchTask) (s : EvalState) (news : List TrackingInfo) : EvalState :=
  news.foldl (processOne cid scoreFn tasks) s

/-- The loop body again, with a fallible `score` collaborator.  An exception
inside `score` propagates before any mutation of that iteration: the
tracking_info keeps its score, nothing is appended, nothing is stored. -/
def processOneE (cid : String) (scoreFn : String → List BigCodeBenchTask → Except ScoreErr Rat)
    (tasks : List BigCodeBenchTask) (s : EvalState) (info : TrackingInfo) :
    EvalState × Option ScoreErr :=
  match previousScore info.model.model_name s.trackers with
  | some prev => ({ s with processed := s.processed ++ [{ info with score := some prev }] }, none)
  | none =>
    if info ∈ s.trackers then
      ({ s with processed := s.processed ++ [info] }, none)
    else if info.model.competition_id ≠ COMPETITION_ID then
      ({ s with processed := s.processed ++ [{ info with score := some 0 }] }, none)
    else
      match scoreFn info.model.model_name tasks with
      | .error e => (s, some e)
      | .ok v =>
        let scored : TrackingInfo := { info with score := some v }
        ({ trackers := s.trackers ++ [scored]
           fs := store_results cid (s.trackers ++ [scored]) s.fs
           scoreCalls := s.scoreCalls ++ [info.model.model_name]
           processed := s.processed ++ [scored] }, none)

/-- evaluate with a fallible `score`: the loop is not wrapped in any
try/except, so the first exception aborts the remaining iterations and
surfaces to the caller, while the state reached so far (including every
store_results write) stands. -/
def evaluateE (cid : String) (scoreFn : String → List BigCodeBenchTask → Except ScoreErr Rat)
    (tasks : List BigCodeBenchTask) : EvalState → List TrackingInfo → EvalState × Option ScoreErr
  | s, [] => (s, none)
  | s, info :: rest =>
    match processOneE cid scoreFn tasks s info with
    | (s', none) => evaluateE cid scoreFn tasks s' rest
    | (s', some e) => (s', some e)

/-- The results property (pipeline.py lines 73-75). -/
def resultsProperty (trackers : List TrackingInfo) (cid : String) : FinetuneEventResults :=
  ⟨trackers, cid⟩

/-- A value yielded while iterating the pydantic FinetuneEventResults model:
iteration over a pydantic BaseModel yields its (field-name, value) pairs, so
the element type is the tagged union of the two field types. -/
inductive ResultsFieldValue where
  | trackersValue (ts : List TrackingInfo)
  | competitionValue (cid : String)
deriving DecidableEq

/-- Iterating the FinetuneEventResults pydantic model (what
`sorted(self.results, ...)` at pipeline.py line 118 iterates): the two
(field-name, value) pairs, in field order. -/
def baseModelIter (r : FinetuneEventResults) : List (String × ResultsFieldValue) :=
  [("trackers", .trackersValue r.trackers), ("competition_id", .competitionValue r.competition_id)]

/-- The sort key `lambda x: x.score` applied to an element yielded by the
model iterator: the element is a (field-name, value) tuple and tuples have no
attribute `score`, so the lookup raises AttributeError. -/
def tupleScore (_ : String × ResultsFieldValue) : Except PyErr Rat :=
  .error .attributeError

/-- `sorted` computes the key of each element in order before comparing;
the first raised exception propagates. -/
def computeKeys : List (String × ResultsFieldValue) →
    Except PyErr (List (Rat × (String × ResultsFieldValue)))
  | [] => .ok []
  | x :: rest =>
    match tupleScore x with
    | .error e => .error e
    | .ok k =>
      match computeKeys rest with
      | .error e => .error e
      | .ok ks => .ok ((k, x) :: ks)

/-- Stable insertion for a descending sort (reverse=True). -/
def insertDesc {α : Type} (y : Rat × α) : List (Rat × α) → List (Rat × α)
  | [] => [y]
  | z :: rest => if z.1 < y.1 then y :: z :: rest else z :: insertDesc y rest

/-- Descending stable sort by the computed keys. -/
def sortDesc {α : Type} : List (Rat × α) → List (Rat × α)
  | [] => []
  | y :: rest => insertDesc y (sortDesc rest)

/-- get_top_model (pipeline.py lines 116-118):
`sorted(self.results, key=lambda x: x.score, reverse=True)[0]`.  The key
computation runs over the pydantic model's field pairs; indexing an empty
sorted list would raise IndexError. -/
def get_top_model (r : FinetuneEventResults) : Except PyErr (String × ResultsFieldValue) :=
  match computeKeys (baseModelIter r) with
  | .error e => .error e
  | .ok keyed =>
    match sortDesc keyed with
    | [] => .error .indexError
    | y :: _ => .ok y.2

/-- The argument list atexit supplies when it fires the handler registered at
pipeline.py line 161: atexit calls each registered callable with no
arguments.  A bound call would supply the instance, identified here by its
competition_id. -/
def atexitHookArgs : List String := []

/-- Invoking the atexit-registered callable at process exit.  The registered
object is the unbound function FinetunePipeline.cleanup, whose one required
positional parameter is `self`; a call supplying no argument raises TypeError
before any statement of the body runs, so no file is touched. -/
def runAtexitHook (fs : FS) : FS × Option PyErr :=
  match atexitHookArgs with
  | [] => (fs, some .typeError)
  | cid :: _ =>
    match cleanup cid fs with
    | .ok fs' => (fs', none)
    | .error e => (fs, some e)

/-- The model names of a tracker list, in order. -/
def modelNames (l : List TrackingInfo) : List String :=
  l.map (fun t => t.model.model_name)

/-- The CandidateIdentity (name/version tuple) of each tracker, in order. -/
def identities (l : List TrackingInfo) : List (String × String) :=
  l.map (fun t => (t.model.model_name, t.model.revision))

/-- The shape every tracker list produced by the pipeline has: every record
carries an assigned (non-None) score, and no two records share a model name. -/
def trackersOk (l : List TrackingInfo) : Prop :=
  (∀ t ∈ l, t.score.isSome = true) ∧ (modelNames l).Nodup

/-- Invariant of the evaluate loop's state for a given competition id: the
in-memory tracker list and the persisted results checkpoint (when present)
are both well-shaped. -/
def stateInv (cid : String) (s : EvalState) : Prop :=
  trackersOk s.trackers ∧ ∀ l, alookup cid s.fs.results = some l → trackersOk l

/-- Five fresh discovered candidates for the crash-injection scenario of the
spec, all inside the active competition. -/
def fiveCandidates : List TrackingInfo :=
  [⟨⟨"m1", "r", COMPETITION_ID⟩, none⟩, ⟨⟨"m2", "r", COMPETITION_ID⟩, none⟩,
   ⟨⟨"m3", "r", COMPETITION_ID⟩, none⟩, ⟨⟨"m4", "r", COMPETITION_ID⟩, none⟩,
   ⟨⟨"m5", "r", COMPETITION_ID⟩, none⟩]

/-- A score collaborator that raises while scoring candidate m3. -/
def failingScoreFn (name : String) (_ : List BigCodeBenchTask) : Except ScoreErr Rat :=
  if name = "m3" then .error (.err "boom") else .ok 1

/-- A score collaborator that always succeeds. -/
def okScoreFn (_ : String) (_ : List BigCodeBenchTask) : Except ScoreErr Rat :=
  .ok 1

theorem alookup_aset {α : Type} (k : String) (v : α) (l : List (String × α)) :
    alookup k (aset k v l) = some v := by
  induction l with
  | nil => simp [aset, alookup]
  | cons hd tl ih =>
    obtain ⟨k', v'⟩ := hd
    by_cases h : k' = k
    · simp [aset, alookup, h]
    · simp [aset, alookup, h, ih]

theorem previousScore_eq_score_of_mem (name : String) (l : List TrackingInfo)
    (t : TrackingInfo) (hnd : (modelNames l).Nodup) (ht : t ∈ l)
    (hn : t.model.model_name = name) :
    previousScore name l = t.score := by
  induction l with
  | nil => cases ht
  | cons hd tl ih =>
    simp only [modelNames, List.map_cons, List.nodup_cons] at hnd
    rcases List.mem_cons.mp ht with rfl | htl
    · simp [previousScore, hn]
    · have hne : hd.model.model_name ≠ name := by
        intro he
        exact hnd.1 (by rw [he, ← hn]; exact List.mem_map_of_mem _ htl)
      rw [previousScore, if_neg hne]
      exact ih hnd.2 htl

theorem previousScore_none_not_mem (name : String) (l : List TrackingInfo)
    (hall : ∀ t ∈ l, t.score.isSome = true)
    (hnone : previousScore name l = none) :
    ∀ t ∈ l, t.model.model_name ≠ name := by
  induction l with
  | nil => intro t ht; cases ht
  | cons hd tl ih =>
    by_cases h : hd.model.model_name = name
    · rw [previousScore, if_pos h] at hnone
      have hs := hall hd (List.mem_cons_self _ _)
      rw [hnone] at hs
      simp at hs
    · intro t ht
      rcases List.mem_cons.mp ht with rfl | htl
      · exact h
      · rw [previousScore, if_neg h] at hnone
        exact ih (fun u hu => hall u (List.mem_cons_of_mem _ hu)) hnone t htl

theorem trackersOk_append_scored (l : List TrackingInfo) (info : TrackingInfo) (v : Rat)
    (hok : trackersOk l)
    (hfresh : ∀ t ∈ l, t.model.model_name ≠ info.model.model_name) :
    trackersOk (l ++ [{ info with score := some v }]) := by
  obtain ⟨hall, hnd⟩ := hok
  constructor
  · intro t ht
    rcases List.mem_append.mp ht with h1 | h2
    · exact hall t h1
    · rw [List.mem_singleton.mp h2]
      rfl
  · simp only [modelNames, List.map_append, List.map_cons, List.map_nil]
    apply List.Nodup.append hnd (List.nodup_singleton _)
    intro a ha hb
    simp only [List.mem_singleton] at hb
    rcases List.mem_map.mp ha with ⟨t, htl, hta⟩
    exact hfresh t htl (by rw [hta, hb])

theorem stateInv_processOne (cid : String) (f : String → List BigCodeBenchTask → Rat)
    (tasks : List BigCodeBenchTask) (s : EvalState) (info : TrackingInfo)
    (h : stateInv cid s) : stateInv cid (processOne cid f tasks s info) := by
  obtain ⟨⟨hall, hnd⟩, hdisk⟩ := h
  unfold processOne
  cases hps : previousScore info.model.model_name s.trackers with
  | some prev => exact ⟨⟨hall, hnd⟩, hdisk⟩
  | none =>
    by_cases hmem : info ∈ s.trackers
    · simp only [if_pos hmem]
      exact ⟨⟨hall, hnd⟩, hdisk⟩
    · simp only [if_neg hmem]
      by_cases hcid : info.model.competition_id ≠ COMPETITION_ID
      · simp only [if_pos hcid]
        exact ⟨⟨hall, hnd⟩, hdisk⟩
      · simp only [if_neg hcid]
        have hfresh : ∀ t ∈ s.trackers, t.model.model_name ≠ info.model.model_name :=
          previousScore_none_not_mem _ _ hall hps
        have hok : trackersOk (s.trackers ++
            [{ info with score := some (f info.model.model_name tasks) }]) :=
          trackersOk_append_scored _ _ _ ⟨hall, hnd⟩ hfresh
        refine ⟨hok, ?_⟩
        intro l hl
        simp only [store_results] at hl
        rw [alookup_aset] at hl
        injection hl with hl
        exact hl ▸ hok

theorem stateInv_evaluate (cid : String) (f : String → List BigCodeBenchTask → Rat)
    (tasks : List BigCodeBenchTask) (news : List TrackingInfo) (s : EvalState)
    (h : stateInv cid s) : stateInv cid (evaluate cid f tasks s news) := by
  induction news generalizing s with
  | nil => exact h
  | cons hd tl ih => exact ih _ (stateInv_processOne cid f tasks s hd h)

theorem identities_nodup_of_names (l : List TrackingInfo)
    (h : (modelNames l).Nodup) : (identities l).Nodup := by
  have he : modelNames l = (identities l).map Prod.fst := by
    simp [modelNames, identities, List.map_map, Function.comp]
  exact List.Nodup.of_map Prod.fst (he ▸ h)

/-- C1: starting from any well-formed accumulated state (for instance the
empty state of a fresh competition, or the state left by any earlier
evaluate run), after evaluate processes any sequence of discovered
candidates, the in-memory tracker list holds at most one TrackingRecord per
CandidateIdentity (model name/version tuple), and so does the persisted
results checkpoint of that competition_id; instantiating `news` with each
prefix of the discovered sequence covers every intermediate checkpoint the
run writes. -/
theorem evaluate_at_most_one_per_identity (cid : String)
    (f : String → List BigCodeBenchTask → Rat) (tasks : List BigCodeBenchTask)
    (s : EvalState) (news : List TrackingInfo) (h : stateInv cid s) :
    (identities (evaluate cid f tasks s news).trackers).Nodup ∧
    ∀ l, alookup cid (evaluate cid f tasks s news).fs.results = some l →
      (identities l).Nodup := by
  have h2 := stateInv_evaluate cid f tasks news s h
  exact ⟨identities_nodup_of_names _ h2.1.2,
    fun l hl => identities_nodup_of_names _ ((h2.2 l hl).2)⟩

theorem evaluate_at_most_one_per_identity_witness :
    stateInv "compA" ⟨[], ⟨[], []⟩, [], []⟩ ∧
    (identities (evaluate "compA" (fun _ _ => 1) [] ⟨[], ⟨[], []⟩, [], []⟩
        [⟨⟨"m1", "r1", COMPETITION_ID⟩, none⟩, ⟨⟨"m1", "r1", COMPETITION_ID⟩, none⟩]).trackers).Nodup := by
  have hinv : stateInv "compA" ⟨[], ⟨[], []⟩, [], []⟩ := by
    refine ⟨⟨?_, ?_⟩, ?_⟩
    · intro t ht; cases ht
    · simp [modelNames]
    · intro l hl; simp [alookup] at hl
  exact ⟨hinv, (evaluate_at_most_one_per_identity "compA" (fun _ _ => 1) []
    ⟨[], ⟨[], []⟩, [], []⟩
    [⟨⟨"m1", "r1", COMPETITION_ID⟩, none⟩, ⟨⟨"m1", "r1", COMPETITION_ID⟩, none⟩] hinv).1⟩

/-- C3: when the accumulated set already holds a TrackingRecord whose model
name equals the discovered candidate's and whose score is non-absent, the
loop iteration copies that score onto the candidate's metadata and changes
nothing else — in particular `score` is never invoked for that candidate
(the score-call log is unchanged), and neither the tracker list nor the
checkpoint moves. -/
theorem processOne_copies_prior_score (cid : String)
    (f : String → List BigCodeBenchTask → Rat) (tasks : List BigCodeBenchTask)
    (s : EvalState) (info t : TrackingInfo) (q : Rat)
    (hnd : (modelNames s.trackers).Nodup) (ht : t ∈ s.trackers)
    (hn : t.model.model_name = info.model.model_name) (hq : t.score = some q) :
    processOne cid f tasks s info =
      { s with processed := s.processed ++ [{ info with score := some q }] } := by
  have hp : previousScore info.model.model_name s.trackers = some q := by
    rw [previousScore_eq_score_of_mem _ _ t hnd ht hn, hq]
  unfold processOne
  rw [hp]

theorem processOne_copies_prior_score_witness :
    processOne "compA" (fun _ _ => 1) []
        ⟨[⟨⟨"m1", "r1", COMPETITION_ID⟩, some (3 / 10)⟩], ⟨[], []⟩, [], []⟩
        ⟨⟨"m1", "r1", COMPETITION_ID⟩, none⟩ =
      ⟨[⟨⟨"m1", "r1", COMPETITION_ID⟩, some (3 / 10)⟩], ⟨[], []⟩, [],
        [⟨⟨"m1", "r1", COMPETITION_ID⟩, some (3 / 10)⟩]⟩ :=
  processOne_copies_prior_score "compA" (fun _ _ => 1) []
    ⟨[⟨⟨"m1", "r1", COMPETITION_ID⟩, some (3 / 10)⟩], ⟨[], []⟩, [], []⟩
    ⟨⟨"m1", "r1", COMPETITION_ID⟩, none⟩ ⟨⟨"m1", "r1", COMPETITION_ID⟩, some (3 / 10)⟩
    (3 / 10) (by simp [modelNames]) (List.mem_singleton.mpr rfl) rfl rfl

/-- C2 counterexample: a discovered candidate whose competition_id differs
from COMPETITION_ID is processed (its score is set to 0.0, third conjunct)
yet its TrackingRecord is neither added to the accumulated tracker list
(first conjunct: the list stays empty) nor persisted to the results
checkpoint (second conjunct: no results file is ever written), so the claim
that every processed candidate's record is present and persisted fails. -/
theorem evaluate_rejected_candidate_not_persisted_cex :
    (evaluate "compA" (fun _ _ => 1) [] ⟨[], ⟨[], []⟩, [], []⟩
        [⟨⟨"m9", "r1", "not-the-competition"⟩, none⟩]).trackers = [] ∧
    alookup "compA" (evaluate "compA" (fun _ _ => 1) [] ⟨[], ⟨[], []⟩, [], []⟩
        [⟨⟨"m9", "r1", "not-the-competition"⟩, none⟩]).fs.results = none ∧
    (evaluate "compA" (fun _ _ => 1) [] ⟨[], ⟨[], []⟩, [], []⟩
        [⟨⟨"m9", "r1", "not-the-competition"⟩, none⟩]).processed
      = [⟨⟨"m9", "r1", "not-the-competition"⟩, some 0⟩] :=
  ⟨rfl, rfl, rfl⟩

/-- C2 amended: for each discovered candidate that is actually scored (it
passes the two dedup checks and the competition check), immediately after the
iteration its TrackingRecord is appended to the accumulated set and the full
accumulated set is persisted to the results checkpoint — persistence happens
after every scored candidate, never batched.  Candidates skipped by dedup or
rejected by the competition check are not appended and trigger no write. -/
theorem processOne_scored_appends_and_persists (cid : String)
    (f : String → List BigCodeBenchTask → Rat) (tasks : List BigCodeBenchTask)
    (s : EvalState) (info : TrackingInfo)
    (h1 : previousScore info.model.model_name s.trackers = none)
    (h2 : info ∉ s.trackers)
    (h3 : info.model.competition_id = COMPETITION_ID) :
    (processOne cid f tasks s info).trackers
        = s.trackers ++ [{ info with score := some (f info.model.model_name tasks) }] ∧
    alookup cid (processOne cid f tasks s info).fs.results
        = some ((processOne cid f tasks s info).trackers) := by
  have hred : processOne cid f tasks s info =
      { trackers := s.trackers ++ [{ info with score := some (f info.model.model_name tasks) }]
        fs := store_results cid
          (s.trackers ++ [{ info with score := some (f info.model.model_name tasks) }]) s.fs
        scoreCalls := s.scoreCalls ++ [info.model.model_name]
        processed := s.processed ++ [{ info with score := some (f info.model.model_name tasks) }] } := by
    unfold processOne
    rw [h1]
    rw [if_neg h2, if_neg (by simp [h3])]
  rw [hred]
  exact ⟨rfl, alookup_aset _ _ _⟩

theorem processOne_scored_appends_and_persists_witness :
    (processOne "compA" (fun _ _ => 1) [] ⟨[], ⟨[], []⟩, [], []⟩
        ⟨⟨"m1", "r1", COMPETITION_ID⟩, none⟩).trackers
      = [] ++ [⟨⟨"m1", "r1", COMPETITION_ID⟩, some 1⟩] ∧
    alookup "compA" (processOne "compA" (fun _ _ => 1) [] ⟨[], ⟨[], []⟩, [], []⟩
        ⟨⟨"m1", "r1", COMPETITION_ID⟩, none⟩).fs.results
      = some ((processOne "compA" (fun _ _ => 1) [] ⟨[], ⟨[], []⟩, [], []⟩
        ⟨⟨"m1", "r1", COMPETITION_ID⟩, none⟩).trackers) :=
  processOne_scored_appends_and_persists "compA" (fun _ _ => 1) []
    ⟨[], ⟨[], []⟩, [], []⟩ ⟨⟨"m1", "r1", COMPETITION_ID⟩, none⟩
    rfl (List.not_mem_nil _) rfl

/-- C4 counterexample: the pipeline's target competition_id is "compA", which
differs from COMPETITION_ID; a fresh discovered candidate whose
competition_id equals COMPETITION_ID therefore differs from the loop's
target, yet the iteration invokes the external `score` for it (the call log
is nonempty) — refuting the claim that such a candidate gets score 0.0 with
no score call.  The check at pipeline.py line 99 compares against the module
constant, not against self.competition_id. -/
theorem processOne_target_mismatch_still_scored_cex :
    ¬ ((processOne "compA" (fun _ _ => 1) [] ⟨[], ⟨[], []⟩, [], []⟩
          ⟨⟨"m1", "r1", COMPETITION_ID⟩, none⟩).scoreCalls = [] ∧
       (processOne "compA" (fun _ _ => 1) [] ⟨[], ⟨[], []⟩, [], []⟩
          ⟨⟨"m1", "r1", COMPETITION_ID⟩, none⟩).processed
         = [⟨⟨"m1", "r1", COMPETITION_ID⟩, some 0⟩]) := by
  intro h
  exact List.cons_ne_nil "m1" [] h.1

/-- C4 amended: for every discovered candidate that reaches the competition
check (no accumulated tracker shares its model name with a non-absent score,
and it is not an element of the accumulated list) and whose competition_id
differs from the module-level constant COMPETITION_ID — the constant, not the
pipeline's target competition_id, is what the code compares against — the
iteration assigns score exactly 0.0 on the candidate's metadata and never
invokes `score`; nothing is appended and nothing is persisted. -/
theorem processOne_constant_mismatch_zero_score (cid : String)
    (f : String → List BigCodeBenchTask → Rat) (tasks : List BigCodeBenchTask)
    (s : EvalState) (info : TrackingInfo)
    (h1 : previousScore info.model.model_name s.trackers = none)
    (h2 : info ∉ s.trackers)
    (h3 : info.model.competition_id ≠ COMPETITION_ID) :
    processOne cid f tasks s info =
      { s with processed := s.processed ++ [{ info with score := some 0 }] } := by
  unfold processOne
  rw [h1]
  rw [if_neg h2, if_pos h3]

theorem processOne_constant_mismatch_zero_score_witness :
    processOne "compA" (fun _ _ => 1) [] ⟨[], ⟨[], []⟩, [], []⟩
        ⟨⟨"m9", "r1", "not-the-competition"⟩, none⟩ =
      ⟨[], ⟨[], []⟩, [], [⟨⟨"m9", "r1", "not-the-competition"⟩, some 0⟩]⟩ :=
  processOne_constant_mismatch_zero_score "compA" (fun _ _ => 1) []
    ⟨[], ⟨[], []⟩, [], []⟩ ⟨⟨"m9", "r1", "not-the-competition"⟩, none⟩
    rfl (List.not_mem_nil _) (by decide)

theorem evaluateE_append (cid : String)
    (fE : String → List BigCodeBenchTask → Except ScoreErr Rat)
    (tasks : List BigCodeBenchTask) (p rest : List TrackingInfo) (s : EvalState) :
    evaluateE cid fE tasks s (p ++ rest) =
      match evaluateE cid fE tasks s p with
      | (s', none) => evaluateE cid fE tasks s' rest
      | (s', some e) => (s', some e) := by
  induction p generalizing s with
  | nil => rfl
  | cons hd tl ih =>
    simp only [List.cons_append, evaluateE]
    cases hpo : processOneE cid fE tasks s hd with
    | mk s' oe =>
      cases oe with
      | none => exact ih s'
      | some e => rfl

theorem processOneE_error_state (cid : String)
    (fE : String → List BigCodeBenchTask → Except ScoreErr Rat)
    (tasks : List BigCodeBenchTask) (s : EvalState) (info : TrackingInfo) (e : ScoreErr)
    (h : (processOneE cid fE tasks s info).2 = some e) :
    processOneE cid fE tasks s info = (s, some e) := by
  unfold processOneE at h ⊢
  cases hps : previousScore info.model.model_name s.trackers with
  | some prev => simp [hps] at h
  | none =>
    by_cases hmem : info ∈ s.trackers
    · simp [hps, hmem] at h
    · by_cases hcid : info.model.competition_id ≠ COMPETITION_ID
      · simp [hps, hmem, hcid] at h
      · rw [not_not] at hcid
        cases hsc : fE info.model.model_name tasks with
        | error e' =>
          simp [hps, hmem, hcid, hsc] at h ⊢
          exact h
        | ok v => simp [hps, hmem, hcid, hsc] at h

/-- C5: a failure inside the external `score` collaborator propagates
immediately and aborts the loop: when the iterations over the prefix `p`
all succeed and scoring candidate `info` raises, the whole run ends with
exactly the state reached after `p` (so every record persisted before the
failure remains on disk) and surfaces that exact error, never reaching the
remaining candidates `q`.  Moreover, in the spec's crash-injection scenario
(five fresh discovered candidates, `score` raising on the third), the run
reports the error, the persisted results checkpoint holds exactly 2
TrackingRecords, and a subsequent run resuming from that checkpoint invokes
`score` only for candidates 3, 4 and 5 and completes without error. -/
theorem evaluateE_failure_aborts_and_preserves :
    (∀ (cid : String) (fE : String → List BigCodeBenchTask → Except ScoreErr Rat)
       (tasks : List BigCodeBenchTask) (s : EvalState) (p q : List TrackingInfo)
       (info : TrackingInfo) (e : ScoreErr),
       (evaluateE cid fE tasks s p).2 = none →
       (processOneE cid fE tasks (evaluateE cid fE tasks s p).1 info).2 = some e →
       evaluateE cid fE tasks s (p ++ info :: q) = ((evaluateE cid fE tasks s p).1, some e)) ∧
    (evaluateE "compA" failingScoreFn [] ⟨[], ⟨[], []⟩, [], []⟩ fiveCandidates).2
      = some (.err "boom") ∧
    (load_results "compA"
        (evaluateE "compA" failingScoreFn [] ⟨[], ⟨[], []⟩, [], []⟩ fiveCandidates).1.fs).length
      = 2 ∧
    (evaluateE "compA" okScoreFn []
        ⟨load_results "compA"
            (evaluateE "compA" failingScoreFn [] ⟨[], ⟨[], []⟩, [], []⟩ fiveCandidates).1.fs,
          (evaluateE "compA" failingScoreFn [] ⟨[], ⟨[], []⟩, [], []⟩ fiveCandidates).1.fs,
          [], []⟩ fiveCandidates).1.scoreCalls = ["m3", "m4", "m5"] ∧
    (evaluateE "compA" okScoreFn []
        ⟨load_results "compA"
            (evaluateE "compA" failingScoreFn [] ⟨[], ⟨[], []⟩, [], []⟩ fiveCandidates).1.fs,
          (evaluateE "compA" failingScoreFn [] ⟨[], ⟨[], []⟩, [], []⟩ fiveCandidates).1.fs,
          [], []⟩ fiveCandidates).2 = none := by
  refine ⟨?_, rfl, rfl, rfl, rfl⟩
  intro cid fE tasks s p q info e h1 h2
  rw [evaluateE_append]
  cases hp : evaluateE cid fE tasks s p with
  | mk s' oe =>
    rw [hp] at h1 h2
    cases oe with
    | some e' => simp at h1
    | none =>
      have he := processOneE_error_state cid fE tasks s' info e h2
      show evaluateE cid fE tasks s' (info :: q) = (s', some e)
      rw [evaluateE, he]

theorem evaluateE_failure_aborts_and_preserves_witness :
    evaluateE "compB" failingScoreFn [] ⟨[], ⟨[], []⟩, [], []⟩
        ([] ++ ⟨⟨"m3", "r3", COMPETITION_ID⟩, none⟩ :: []) =
      (⟨[], ⟨[], []⟩, [], []⟩, some (.err "boom")) :=
  evaluateE_failure_aborts_and_preserves.1 "compB" failingScoreFn []
    ⟨[], ⟨[], []⟩, [], []⟩ [] [] ⟨⟨"m3", "r3", COMPETITION_ID⟩, none⟩
    (.err "boom") rfl rfl

/-- C6: cleanup is NOT idempotent.  A first cleanup with competition "a"'s
checkpoint files present succeeds and leaves no checkpoint file, after which
loading tasks returns absent and loading results returns empty — but an
immediate second cleanup raises FileNotFoundError, because
`os.remove(f"tasks_a.pkl")` at pipeline.py line 145 runs unconditionally on a
file that no longer exists.  This refutes the claim's "calling cleanup a
second time does not fail". -/
theorem cleanup_second_call_raises :
    cleanup "a" ⟨[("a", [⟨⟨"x"⟩⟩])], [("a", [])]⟩ = .ok ⟨[], []⟩ ∧
    alookup "a" (⟨[], []⟩ : FS).tasks = none ∧
    load_results "a" ⟨[], []⟩ = [] ∧
    cleanup "a" (⟨[], []⟩ : FS) = .error .fileNotFoundError :=
  ⟨rfl, rfl, rfl, rfl⟩

/-- C7: cleanup for competition "a" also deletes competition "b"'s checkpoint
files.  Before the call, "b"'s tasks checkpoint is present; cleanup "a"
succeeds and returns a directory with no checkpoint files at all, so "b"'s
tasks and results checkpoints are gone — the directory scan at pipeline.py
lines 147-151 removes every `tasks_*.pkl` and `results_*.pkl` file regardless
of competition_id, refuting the claim that c-prime's files are left
unchanged. -/
theorem cleanup_deletes_other_competition :
    alookup "b" (⟨[("a", [⟨⟨"x"⟩⟩]), ("b", [⟨⟨"y"⟩⟩])],
        [("a", []), ("b", [⟨⟨"m", "r", COMPETITION_ID⟩, some 1⟩])]⟩ : FS).tasks
      = some [⟨⟨"y"⟩⟩] ∧
    cleanup "a" ⟨[("a", [⟨⟨"x"⟩⟩]), ("b", [⟨⟨"y"⟩⟩])],
        [("a", []), ("b", [⟨⟨"m", "r", COMPETITION_ID⟩, some 1⟩])]⟩ = .ok ⟨[], []⟩ ∧
    alookup "b" (⟨[], []⟩ : FS).tasks = none ∧
    alookup "b" (⟨[], []⟩ : FS).results = none :=
  ⟨rfl, rfl, rfl, rfl⟩

/-- C8: get_top_model never sorts the trackers by score — for every
FinetuneEventResults it raises AttributeError, because
`sorted(self.results, ...)` iterates the pydantic model itself, yielding
(field-name, value) tuples on which the key `lambda x: x.score` fails.  In
particular on the spec's ResultSet with scores A: 0.3, B: 0.9, C: 0.5 it
raises instead of returning B, and on the empty ResultSet it raises
AttributeError instead of an empty-result error. -/
theorem get_top_model_raises_attribute_error :
    (∀ r : FinetuneEventResults, get_top_model r = .error .attributeError) ∧
    get_top_model (resultsProperty
        [⟨⟨"A", "r", COMPETITION_ID⟩, some (3 / 10)⟩,
         ⟨⟨"B", "r", COMPETITION_ID⟩, some (9 / 10)⟩,
         ⟨⟨"C", "r", COMPETITION_ID⟩, some (5 / 10)⟩] COMPETITION_ID)
      = .error .attributeError ∧
    get_top_model (resultsProperty [] COMPETITION_ID) = .error .attributeError :=
  ⟨fun _ => rfl, rfl, rfl⟩

/-- C9: on a first start (no tasks checkpoint for this competition_id),
load_tasks builds a task set whose length is exactly the configured sample
size and persists it; on any later start for the same competition_id — even
with a different dataset stream or a different configured size — the task set
is loaded from the checkpoint rather than regenerated, so its length and
contents are unchanged and the stored file is untouched. -/
theorem load_tasks_builds_once_then_loads (cid : String) (ds ds2 : Nat → Context)
    (n n2 : Nat) (fs : FS) (h : alookup cid fs.tasks = none) :
    (load_tasks cid ds n fs).tasks.length = n ∧
    (load_tasks cid ds n fs).generated = true ∧
    alookup cid (load_tasks cid ds n fs).fs.tasks = some (load_tasks cid ds n fs).tasks ∧
    (load_tasks cid ds2 n2 (load_tasks cid ds n fs).fs).tasks = (load_tasks cid ds n fs).tasks ∧
    (load_tasks cid ds2 n2 (load_tasks cid ds n fs).fs).generated = false ∧
    (load_tasks cid ds2 n2 (load_tasks cid ds n fs).fs).fs = (load_tasks cid ds n fs).fs := by
  have h1 : load_tasks cid ds n fs =
      ⟨generate_bigcode_tasks ds n, store_tasks cid (generate_bigcode_tasks ds n) fs, true⟩ := by
    unfold load_tasks
    rw [h]
  have hlk : alookup cid (store_tasks cid (generate_bigcode_tasks ds n) fs).tasks
      = some (generate_bigcode_tasks ds n) :=
    alookup_aset _ _ _
  have h2 : load_tasks cid ds2 n2 (store_tasks cid (generate_bigcode_tasks ds n) fs) =
      ⟨generate_bigcode_tasks ds n, store_tasks cid (generate_bigcode_tasks ds n) fs, false⟩ := by
    unfold load_tasks
    rw [hlk]
  rw [h1]
  refine ⟨by simp [generate_bigcode_tasks], rfl, hlk, ?_, ?_, ?_⟩
  · show (load_tasks cid ds2 n2 (store_tasks cid (generate_bigcode_tasks ds n) fs)).tasks
        = generate_bigcode_tasks ds n
    rw [h2]
  · show (load_tasks cid ds2 n2 (store_tasks cid (generate_bigcode_tasks ds n) fs)).generated
        = false
    rw [h2]
  · show (load_tasks cid ds2 n2 (store_tasks cid (generate_bigcode_tasks ds n) fs)).fs
        = store_tasks cid (generate_bigcode_tasks ds n) fs
    rw [h2]

theorem load_tasks_builds_once_then_loads_witness :
    alookup "a" (⟨[], []⟩ : FS).tasks = none ∧
    (load_tasks "a" (fun _ => ⟨"s"⟩) 2 ⟨[], []⟩).tasks.length = 2 ∧
    (load_tasks "a" (fun _ => ⟨"t"⟩) 7
        (load_tasks "a" (fun _ => ⟨"s"⟩) 2 ⟨[], []⟩).fs).generated = false :=
  ⟨rfl,
    (load_tasks_builds_once_then_loads "a" (fun _ => ⟨"s"⟩) (fun _ => ⟨"t"⟩) 2 7
      ⟨[], []⟩ rfl).1,
    (load_tasks_builds_once_then_loads "a" (fun _ => ⟨"s"⟩) (fun _ => ⟨"t"⟩) 2 7
      ⟨[], []⟩ rfl).2.2.2.2.1⟩

/-- C10: the process-exit hook registered at pipeline.py line 161 never
performs the purge.  atexit stores the unbound function
FinetunePipeline.cleanup and invokes it at exit with zero arguments, but the
function requires the positional argument `self`, so every invocation raises
TypeError before any deletion and leaves the directory untouched — refuting
the claim that the hook successfully purges without erroring on every exit
path. -/
theorem atexit_hook_raises_type_error (fs : FS) :
    runAtexitHook fs = (fs, some .typeError) :=
  rfl
